import Mathlib

/-!
Verification of the pivot/render core of the `fast-api-excel` repository.

The embedded code is `src/services/excel_service.py` (`ExcelService.pivot_student_data`
and `ExcelService.generate_excel`), together with the one SQL expression of
`src/services/query_service.py` that manufactures the `StudentAnswer` field.

Modelling conventions:
* A pandas DataFrame row of the flat query result is a `FlatRecord`.  All value
  fields are total except `StudentId` (`u.LoginId` in the SQL carries no
  `COALESCE`, so it is the one identity field that can arrive as SQL `NULL`,
  i.e. pandas `NaN`); every other field is wrapped in `COALESCE`/`CASE` by the
  query, so it is never null when it reaches the pivot.
* A cell of the wide table is a `Cell`; `Cell.na` models a pandas `NaN`.
* `pivot_table(index='StudentId', columns='QNum', aggfunc='first')` groups by
  the non-null student ids (pandas `groupby` drops `NaN` keys) and, since every
  value field is non-null, `aggfunc='first'` returns the fields of the first
  matching record in original row order; a `('value', qnum)` column exists in
  the pivot exactly when some record with a non-null `StudentId` maps to that
  `qnum` (`slotKept` below).  The subsequent `if col_name in result_df.columns`
  filter of `pivot_student_data` therefore keeps precisely the kept slots.
* `students_df.merge(pivoted, on='StudentId', how='left')` preserves the left
  (first-seen student) order and finds no partner for a `NaN` student id, so
  such a row gets `NaN` question cells, later filled by the `fillna` pass.
-/

namespace FastApiExcel

/-- A cell of a (pandas) table: a string, an integer, or a missing value
(`na` models pandas `NaN`). -/
inductive Cell where
  | str : String → Cell
  | int : Int → Cell
  | na : Cell
deriving DecidableEq, Repr

/-- One row of the flat query result of
`query_service.get_student_responses` — one student's answer to one question.
Field names follow the SQL column aliases.  `StudentId` (`u.LoginId`) is the
only field that can be SQL `NULL`; all others are `COALESCE`d at the source. -/
structure FlatRecord where
  TestDate : String
  SchoolId : Int
  SchoolName : String
  StudentId : Option String
  FirstName : String
  LastName : String
  Gender : String
  Grade : Int
  Region : String
  QuestionID : Int
  QuestionType : String
  Subject : String
  Level : String
  StudentAnswer : String
  CorrectAnswer : String
  Score : Int
deriving DecidableEq, Repr

/-- Distinct elements of a list in first-seen order, given an accumulator of
already-seen elements — the semantics of pandas `Series.unique` and of the key
scan of `drop_duplicates`. -/
def firstSeenAux [DecidableEq α] (seen : List α) : List α → List α
  | [] => []
  | a :: l => if a ∈ seen then firstSeenAux seen l else a :: firstSeenAux (a :: seen) l

/-- Distinct elements of a list in first-seen order (`Series.unique`). -/
def firstSeen [DecidableEq α] (l : List α) : List α :=
  firstSeenAux [] l

/-- Keep the first element for every distinct key, in first-seen order — the
semantics of `DataFrame.drop_duplicates(subset=[key])` (pandas treats two `NaN`
keys as duplicates of each other, matching `Option` equality on `none`). -/
def dropDupByAux [DecidableEq β] (key : α → β) (seen : List β) : List α → List α
  | [] => []
  | a :: l =>
    if key a ∈ seen then dropDupByAux key seen l
    else a :: dropDupByAux key (key a :: seen) l

/-- The line `all_question_ids = sorted(df['QuestionID'].unique())` of
`pivot_student_data`: distinct question ids in ascending numeric order.
Slot `k` (1-based) is question id `(questionIds df)[k-1]`, i.e. the mapping
`q_id_to_num = {q_id: idx for idx, q_id in enumerate(all_question_ids, 1)}`. -/
def questionIds (df : List FlatRecord) : List Int :=
  List.insertionSort (· ≤ ·) (firstSeen (df.map (·.QuestionID)))

/-- The number of question slots `N` of one pivot invocation. -/
def numQuestions (df : List FlatRecord) : Nat :=
  (questionIds df).length

/-- The line `students_df = df[student_cols].drop_duplicates(subset=['StudentId'])`:
one record per distinct student id, first occurrence wins, first-seen order. -/
def students (df : List FlatRecord) : List FlatRecord :=
  dropDupByAux (·.StudentId) [] df

/-- The record that `pivot_table(index='StudentId', columns='QNum',
aggfunc='first')` aggregates into the block of student `sid` and question `q`,
as seen by the student's row after the left merge: pandas `groupby` drops
`NaN` index keys, so a `none` student id finds nothing, and `aggfunc='first'`
keeps the first matching record in original row order (all value fields are
non-null, see the module comment). -/
def recordFor (df : List FlatRecord) (sid : Option String) (q : Int) : Option FlatRecord :=
  match sid with
  | none => none
  | some s => (df.filter (fun r => decide (r.StudentId = some s ∧ r.QuestionID = q))).head?

/-- A `('value', qnum)` column family survives the pivot exactly when some
record with a non-null `StudentId` carries that question — otherwise all its
groups were dropped with their `NaN` keys and `pivot_table` (with its default
`dropna=True`) emits no column for the slot, so the later
`if col_name in result_df.columns` filter of `pivot_student_data` removes the
slot's seven names from `final_columns`. -/
def slotKept (df : List FlatRecord) (q : Int) : Bool :=
  df.any (fun r => decide (r.StudentId ≠ none ∧ r.QuestionID = q))

/-- The class constant `ExcelService.STUDENT_COLUMNS`. -/
def STUDENT_COLUMNS : List String :=
  ["TestDate", "SchoolId", "SchoolName", "StudentId", "FirstName", "LastName",
   "Gender", "Grade", "Region"]

/-- The class constant `ExcelService.QUESTION_COLUMNS` (the output-side names
of the `pivot_cols` mapping, in the order of the reorder loop). -/
def QUESTION_COLUMNS : List String :=
  ["QuestionId", "Subject", "Level", "Type", "StudentAnswer", "CorrectAnswer", "Score"]

/-- The flattened column name `f"Q{q_num}_{pivot_cols[value_name]}"`. -/
def qColName (k : Nat) (c : String) : String :=
  "Q" ++ toString k ++ "_" ++ c

/-- The source-side value of output field `c` taken from record `r`, following
the `pivot_cols` dictionary (`'QuestionID' -> 'QuestionId'`,
`'QuestionType' -> 'Type'`, the rest identical). -/
def qFieldValue (r : FlatRecord) (c : String) : Cell :=
  if c = "QuestionId" then .int r.QuestionID
  else if c = "Subject" then .str r.Subject
  else if c = "Level" then .str r.Level
  else if c = "Type" then .str r.QuestionType
  else if c = "StudentAnswer" then .str r.StudentAnswer
  else if c = "CorrectAnswer" then .str r.CorrectAnswer
  else if c = "Score" then .int r.Score
  else .na

/-- The pre-fill cell of student `sid`, slot `k` (1-based), output field `c`:
`NaN` when the slot is out of range or the student has no record for the
slot's question (no partner in the left merge). -/
def rawQCell (df : List FlatRecord) (sid : Option String) (k : Nat) (c : String) : Cell :=
  match (questionIds df)[k - 1]? with
  | none => .na
  | some q =>
    match recordFor df sid q with
    | none => .na
    | some r => qFieldValue r c

/-- The `fillna` pass of `pivot_student_data`, applied to one cell of a
question column whose name ends in `"_" ++ c`: only `NaN` cells are replaced
(`fillna` never touches present values, including the empty string), with
`'Not Answered'` for `*_StudentAnswer`, `0` for `*_Score`, `'N/A'` for the
five remaining question families, and no fill for any other suffix. -/
def fillCell (c : String) (v : Cell) : Cell :=
  match v with
  | .na =>
    if c = "StudentAnswer" then .str "Not Answered"
    else if c = "Score" then .int 0
    else if c = "QuestionId" ∨ c = "Subject" ∨ c = "Level" ∨ c = "Type" ∨ c = "CorrectAnswer"
      then .str "N/A"
    else .na
  | v => v

/-- The post-fill cell of student `sid`, slot `k`, output field `c`. -/
def qCell (df : List FlatRecord) (sid : Option String) (k : Nat) (c : String) : Cell :=
  fillCell c (rawQCell df sid k c)

/-- The seven filled cells `Qk_QuestionId .. Qk_Score` of one kept slot. -/
def qBlock (df : List FlatRecord) (sid : Option String) (k : Nat) : List Cell :=
  QUESTION_COLUMNS.map (qCell df sid k)

/-- The `pd.to_datetime(...).dt.strftime('%Y-%m-%d')` reformatting of
`TestDate`, modelled for the ISO `YYYY-MM-DD[ HH:MM:SS]` strings the source
database delivers: the date is the first ten characters. -/
def formatTestDate (s : String) : String :=
  s.take 10

/-- The cell of student column `c` in the row of first-seen record `r`
(the merge carries `students_df` through unchanged; a missing student id is a
`NaN` cell, and no `fillna` suffix matches a student column, so it stays). -/
def studentCell (r : FlatRecord) (c : String) : Cell :=
  if c = "TestDate" then .str (formatTestDate r.TestDate)
  else if c = "SchoolId" then .int r.SchoolId
  else if c = "SchoolName" then .str r.SchoolName
  else if c = "StudentId" then
    match r.StudentId with
    | some s => .str s
    | none => .na
  else if c = "FirstName" then .str r.FirstName
  else if c = "LastName" then .str r.LastName
  else if c = "Gender" then .str r.Gender
  else if c = "Grade" then .int r.Grade
  else if c = "Region" then .str r.Region
  else .na

/-- Concatenation of per-slot segments for slots `k, k+1, ..., k+n-1` — the
shape of the loop `for idx in range(1, len(all_question_ids) + 1)`. -/
def blocksFrom (f : Nat → List α) : Nat → Nat → List α
  | _, 0 => []
  | k, n + 1 => f k ++ blocksFrom f (k + 1) n

/-- The column-name segment contributed by slot `k`: the seven flattened names
when the slot survived the pivot, nothing otherwise (the
`if col_name in result_df.columns` filter). -/
def colBlock (df : List FlatRecord) (k : Nat) : List String :=
  match (questionIds df)[k - 1]? with
  | none => []
  | some q => if slotKept df q then QUESTION_COLUMNS.map (qColName k) else []

/-- The cell segment contributed by slot `k` to the row of student `sid`,
aligned with `colBlock`. -/
def rowBlock (df : List FlatRecord) (sid : Option String) (k : Nat) : List Cell :=
  match (questionIds df)[k - 1]? with
  | none => []
  | some q => if slotKept df q then qBlock df sid k else []

/-- The final column list of `pivot_student_data`: `STUDENT_COLUMNS` (all nine
always exist in `result_df`) followed by the surviving flattened question
columns, slot-major, in `QUESTION_COLUMNS` order. -/
def pivotColumns (df : List FlatRecord) : List String :=
  STUDENT_COLUMNS ++ blocksFrom (colBlock df) 1 (numQuestions df)

/-- The output row of the student whose first-seen record is `r`. -/
def studentRow (df : List FlatRecord) (r : FlatRecord) : List Cell :=
  STUDENT_COLUMNS.map (studentCell r) ++ blocksFrom (rowBlock df r.StudentId) 1 (numQuestions df)

/-- A named-column table: the shape of the wide DataFrame. -/
structure Table where
  columns : List String
  rows : List (List Cell)
deriving DecidableEq, Repr

/-- The pivot transform `ExcelService.pivot_student_data`: the empty input
returns the empty DataFrame, otherwise one row per distinct student id in
first-seen order, columns as assembled by the reorder loop. -/
def pivot_student_data (df : List FlatRecord) : Table :=
  if df.isEmpty then ⟨[], []⟩
  else ⟨pivotColumns df, (students df).map (studentRow df)⟩

/-- The spreadsheet artifact produced by `ExcelService.generate_excel`,
reduced to its cell content: the empty-data workbook carries the two cells
`A1`/`A2`; the full report carries the three metadata lines `A1`/`A2`/`A3` of
the `'Student Responses'` sheet, its header row and data rows, and the
`Metric`/`Value` pairs of the `'Summary'` sheet. -/
inductive ExcelArtifact where
  | emptyReport (a1 a2 : String)
  | report (a1 a2 a3 : String) (header : List String) (dataRows : List (List Cell))
      (summary : List (String × Cell))
deriving DecidableEq, Repr

/-- The expression `(len(df.columns) - len(self.STUDENT_COLUMNS)) // 7`, used
verbatim for the `A3` header line and the summary sheet.  Python `//` is floor
division, hence `Int.fdiv`. -/
def questionCount (t : Table) : Int :=
  Int.fdiv ((t.columns.length : Int) - (STUDENT_COLUMNS.length : Int)) 7

/-- The expression `df['SchoolId'].nunique() if 'SchoolId' in df.columns else 0`:
the number of distinct non-`NaN` values of the `SchoolId` column. -/
def schoolIdNunique (t : Table) : Int :=
  match t.columns.findIdx? (· = "SchoolId") with
  | none => 0
  | some i =>
    ((firstSeen ((t.rows.filterMap (fun row => row[i]?)).filter (fun v => decide (v ≠ Cell.na)))).length : Int)

/-- The render `ExcelService.generate_excel`.  `now` stands for the
`datetime.now().strftime('%Y-%m-%d %H:%M:%S')` timestamp; `_contest_info` is
the `contest_info` parameter, accepted and unused exactly as in the source.
`df.empty` is true when either axis has length zero. -/
def generate_excel (t : Table) (contest_id : Int)
    (_contest_info : Option (List (String × String))) (now : String) : ExcelArtifact :=
  if t.rows.isEmpty || t.columns.isEmpty then
    .emptyReport ("Contest ID: " ++ toString contest_id)
      "No data found for the specified filters."
  else
    .report
      ("Contest ID: " ++ toString contest_id)
      ("Generated: " ++ now)
      ("Students: " ++ toString t.rows.length ++ " | Questions: " ++ toString (questionCount t))
      t.columns
      t.rows
      [("Contest ID", .int contest_id),
       ("Total Students", .int (t.rows.length : Int)),
       ("Total Schools", .int (schoolIdNunique t)),
       ("Total Questions", .int (questionCount t)),
       ("Generated At", .str now)]

/-- The `A3` metadata line of the non-empty artifact. -/
def ExcelArtifact.studentsLine : ExcelArtifact → Option String
  | .emptyReport _ _ => none
  | .report _ _ a3 _ _ _ => some a3

/-- The summary-sheet pairs of the non-empty artifact. -/
def ExcelArtifact.summaryPairs : ExcelArtifact → List (String × Cell)
  | .emptyReport _ _ => []
  | .report _ _ _ _ _ s => s

/-- The seven cells of block `k` (1-based) of a wide row whose slots were all
kept: positions `9 + 7*(k-1) .. 9 + 7*(k-1) + 6`. -/
def blockAt (row : List α) (k : Nat) : List α :=
  (row.drop (STUDENT_COLUMNS.length + 7 * (k - 1))).take 7

/-- The documented default block of an unanswered slot, in `QUESTION_COLUMNS`
order. -/
def defaultBlock : List Cell :=
  [.str "N/A", .str "N/A", .str "N/A", .str "N/A", .str "Not Answered", .str "N/A", .int 0]

/-- The `StudentAnswer` expression of the SQL of
`query_service.get_student_responses`:
`CASE WHEN tr.UserAnswer IS NULL OR tr.UserAnswer = '' THEN 'Not Answered' ELSE tr.UserAnswer END`. -/
def studentAnswerSQL : Option String → String
  | none => "Not Answered"
  | some s => if s = "" then "Not Answered" else s

/-- Every question slot is carried by at least one record with a present
student id — the regime in which no slot is dropped by the pivot, so the wide
table has the full `9 + 7*N` column grid.  This holds for every result set in
which `u.LoginId` is non-null. -/
def slotsFilled (df : List FlatRecord) : Prop :=
  ∀ q ∈ questionIds df, ∃ r ∈ df, r.StudentId ≠ none ∧ r.QuestionID = q

instance (df : List FlatRecord) : Decidable (slotsFilled df) := by
  unfold slotsFilled
  infer_instance

/-! ### Helper lemmas about the list combinators -/

theorem firstSeenAux_mem [DecidableEq α] (seen : List α) (l : List α) (a : α) :
    a ∈ firstSeenAux seen l ↔ a ∈ l ∧ a ∉ seen := by
  induction l generalizing seen with
  | nil => simp [firstSeenAux]
  | cons b t ih =>
    simp only [firstSeenAux, List.mem_cons]
    split
    case isTrue hb =>
      rw [ih]
      constructor
      · exact fun h => ⟨Or.inr h.1, h.2⟩
      · rintro ⟨rfl | h1, h2⟩
        · exact absurd hb h2
        · exact ⟨h1, h2⟩
    case isFalse hb =>
      simp only [List.mem_cons, ih, List.mem_cons]
      constructor
      · rintro (rfl | ⟨h1, h2⟩)
        · exact ⟨Or.inl rfl, hb⟩
        · exact ⟨Or.inr h1, fun hc => h2 (Or.inr hc)⟩
      · rintro ⟨rfl | h1, h2⟩
        · exact Or.inl rfl
        · by_cases hab : a = b
          · exact Or.inl hab
          · exact Or.inr ⟨h1, fun hc => hc.elim hab h2⟩

theorem firstSeen_mem [DecidableEq α] (l : List α) (a : α) :
    a ∈ firstSeen l ↔ a ∈ l := by
  rw [firstSeen, firstSeenAux_mem]
  simp

theorem firstSeenAux_nodup [DecidableEq α] (seen : List α) (l : List α) :
    (firstSeenAux seen l).Nodup := by
  induction l generalizing seen with
  | nil => simp [firstSeenAux]
  | cons b t ih =>
    simp only [firstSeenAux]
    split
    · exact ih seen
    · refine List.nodup_cons.2 ⟨fun hb => ?_, ih (b :: seen)⟩
      exact ((firstSeenAux_mem _ _ _).1 hb).2 (List.mem_cons_self b seen)

theorem firstSeen_nodup [DecidableEq α] (l : List α) : (firstSeen l).Nodup :=
  firstSeenAux_nodup [] l

theorem firstSeen_perm [DecidableEq α] {l l' : List α} (h : List.Perm l l') :
    List.Perm (firstSeen l) (firstSeen l') :=
  (List.perm_ext_iff_of_nodup (firstSeen_nodup l) (firstSeen_nodup l')).2
    (fun a => by rw [firstSeen_mem, firstSeen_mem]; exact h.mem_iff)

theorem firstSeen_length_eq_card [DecidableEq α] (l : List α) :
    (firstSeen l).length = l.toFinset.card := by
  have hset : (firstSeen l).toFinset = l.toFinset := by
    apply Finset.ext
    intro a
    simp [List.mem_toFinset, firstSeen_mem]
  rw [← hset, List.toFinset_card_of_nodup (firstSeen_nodup l)]

theorem dropDupByAux_length [DecidableEq β] (key : α → β) (seen : List β) (l : List α) :
    (dropDupByAux key seen l).length = (firstSeenAux seen (l.map key)).length := by
  induction l generalizing seen with
  | nil => rfl
  | cons a t ih =>
    simp only [dropDupByAux, List.map_cons, firstSeenAux]
    split
    · exact ih seen
    · simpa using ih (key a :: seen)

theorem students_length (df : List FlatRecord) :
    (students df).length = (firstSeen (df.map (·.StudentId))).length :=
  dropDupByAux_length _ [] df

theorem students_subset {df : List FlatRecord} {r : FlatRecord}
    (h : r ∈ students df) : r ∈ df := by
  rw [students] at h
  have key : ∀ (seen : List (Option String)) (l : List FlatRecord),
      r ∈ dropDupByAux (·.StudentId) seen l → r ∈ l := by
    intro seen l
    induction l generalizing seen with
    | nil => simp [dropDupByAux]
    | cons a t ih =>
      simp only [dropDupByAux]
      split
      · exact fun hm => List.mem_cons_of_mem _ (ih _ hm)
      · intro hm
        rcases List.mem_cons.1 hm with rfl | hm
        · exact List.mem_cons_self _ _
        · exact List.mem_cons_of_mem _ (ih _ hm)
  exact key [] df h

/-! ### Helper lemmas about the slot mapping -/

theorem questionIds_sorted (df : List FlatRecord) :
    List.Sorted (· ≤ ·) (questionIds df) :=
  List.sorted_insertionSort _ _

theorem questionIds_nodup (df : List FlatRecord) : (questionIds df).Nodup :=
  (List.perm_insertionSort _ _).nodup_iff.2 (firstSeen_nodup _)

theorem questionIds_mem (df : List FlatRecord) (q : Int) :
    q ∈ questionIds df ↔ ∃ r ∈ df, r.QuestionID = q := by
  rw [questionIds, (List.perm_insertionSort _ _).mem_iff, firstSeen_mem, List.mem_map]

theorem questionIds_perm {df df' : List FlatRecord} (h : List.Perm df df') :
    questionIds df = questionIds df' :=
  List.eq_of_perm_of_sorted
    (((List.perm_insertionSort _ _).trans (firstSeen_perm (h.map _))).trans
      (List.perm_insertionSort _ _).symm)
    (questionIds_sorted df) (questionIds_sorted df')

theorem slotKept_perm {df df' : List FlatRecord} (h : List.Perm df df') (q : Int) :
    slotKept df q = slotKept df' q := by
  rw [slotKept, slotKept]
  rcases hb : df'.any (fun r => decide (r.StudentId ≠ none ∧ r.QuestionID = q)) with _ | _
  · rw [Bool.eq_false_iff]
    intro hc
    rw [List.any_eq_true] at hc
    rcases hc with ⟨r, hr, hq⟩
    rw [Bool.eq_false_iff] at hb
    exact hb (List.any_eq_true.2 ⟨r, h.mem_iff.1 hr, hq⟩)
  · rw [List.any_eq_true] at hb ⊢
    rcases hb with ⟨r, hr, hq⟩
    exact ⟨r, h.mem_iff.2 hr, hq⟩

/-! ### Helper lemmas about block layout -/

theorem blocksFrom_congr {f g : Nat → List α} (k n : Nat)
    (h : ∀ i, i < n → f (k + i) = g (k + i)) :
    blocksFrom f k n = blocksFrom g k n := by
  induction n generalizing k with
  | zero => rfl
  | succ n ih =>
    simp only [blocksFrom]
    have h0 : f k = g k := by simpa using h 0 (Nat.succ_pos n)
    rw [h0]
    congr 1
    exact ih (k + 1) (fun i hi => by
      have := h (i + 1) (Nat.succ_lt_succ hi)
      simpa [Nat.add_assoc, Nat.add_comm 1 i] using this)

theorem blocksFrom_drop_take {f : Nat → List α} (hf : ∀ i, (f i).length = 7) :
    ∀ (n k j : Nat), j < n →
      ((blocksFrom f k n).drop (7 * j)).take 7 = f (k + j) := by
  intro n
  induction n with
  | zero => intro k j hj; omega
  | succ n ih =>
    intro k j hj
    cases j with
    | zero =>
      simp only [blocksFrom, Nat.mul_zero, List.drop_zero, Nat.add_zero]
      rw [show (7 : Nat) = (f k).length from (hf k).symm, List.take_left]
    | succ j =>
      have hlen : 7 * (j + 1) = (f k).length + 7 * j := by rw [hf k]; ring
      rw [blocksFrom, hlen, List.drop_append]
      rw [show k + (j + 1) = (k + 1) + j by ring]
      exact ih (k + 1) j (Nat.lt_of_succ_lt_succ hj)

theorem blocksFrom_length {f : Nat → List α} (hf : ∀ i, (f i).length = 7) :
    ∀ (n k : Nat), (blocksFrom f k n).length = 7 * n := by
  intro n
  induction n with
  | zero => intro k; rfl
  | succ n ih =>
    intro k
    simp only [blocksFrom, List.length_append, hf k, ih (k + 1)]
    ring

/-! ### Helper lemmas about cells, blocks and rows of the pivot -/

theorem qBlock_length (df : List FlatRecord) (sid : Option String) (k : Nat) :
    (qBlock df sid k).length = 7 := by
  simp [qBlock, QUESTION_COLUMNS]

theorem slotKept_of_filled {df : List FlatRecord} (hfill : slotsFilled df) {q : Int}
    (hq : q ∈ questionIds df) : slotKept df q = true := by
  rcases hfill q hq with ⟨r, hr, hsid, hqid⟩
  exact List.any_eq_true.2 ⟨r, hr, decide_eq_true ⟨hsid, hqid⟩⟩

theorem rowBlock_eq_qBlock {df : List FlatRecord} (hfill : slotsFilled df)
    (sid : Option String) {k : Nat} {q : Int}
    (hq : (questionIds df)[k - 1]? = some q) :
    rowBlock df sid k = qBlock df sid k := by
  simp [rowBlock, hq, slotKept_of_filled hfill (List.getElem?_mem hq)]

theorem colBlock_eq_names {df : List FlatRecord} (hfill : slotsFilled df)
    {k : Nat} {q : Int} (hq : (questionIds df)[k - 1]? = some q) :
    colBlock df k = QUESTION_COLUMNS.map (qColName k) := by
  simp [colBlock, hq, slotKept_of_filled hfill (List.getElem?_mem hq)]

theorem slot_some (df : List FlatRecord) (k : Nat) (hk1 : 1 ≤ k)
    (hk2 : k ≤ numQuestions df) :
    ∃ q : Int, (questionIds df)[k - 1]? = some q := by
  have hlt : k - 1 < (questionIds df).length := by
    rw [numQuestions] at hk2
    omega
  exact ⟨(questionIds df)[k - 1], List.getElem?_eq_getElem hlt⟩

theorem studentRow_blockAt {df : List FlatRecord} (hfill : slotsFilled df)
    (r : FlatRecord) {k : Nat} (hk1 : 1 ≤ k) (hk2 : k ≤ numQuestions df) :
    blockAt (studentRow df r) k = qBlock df r.StudentId k := by
  rw [blockAt, studentRow]
  rw [show STUDENT_COLUMNS.length + 7 * (k - 1)
      = (STUDENT_COLUMNS.map (studentCell r)).length + 7 * (k - 1) by
    rw [List.length_map]]
  rw [List.drop_append]
  have hcongr : blocksFrom (rowBlock df r.StudentId) 1 (numQuestions df)
      = blocksFrom (qBlock df r.StudentId) 1 (numQuestions df) := by
    apply blocksFrom_congr
    intro i hi
    rcases slot_some df (1 + i) (by omega) (by omega) with ⟨q, hq⟩
    exact rowBlock_eq_qBlock hfill _ hq
  rw [hcongr, blocksFrom_drop_take (fun i => qBlock_length df r.StudentId i)
      (numQuestions df) 1 (k - 1) (by omega)]
  congr 1
  omega

theorem pivotColumns_blockAt {df : List FlatRecord} (hfill : slotsFilled df)
    {k : Nat} (hk1 : 1 ≤ k) (hk2 : k ≤ numQuestions df) :
    blockAt (pivotColumns df) k = QUESTION_COLUMNS.map (qColName k) := by
  rw [blockAt, pivotColumns]
  rw [show STUDENT_COLUMNS.length + 7 * (k - 1)
      = STUDENT_COLUMNS.length + 7 * (k - 1) from rfl]
  rw [List.drop_append]
  have hcongr : blocksFrom (colBlock df) 1 (numQuestions df)
      = blocksFrom (fun j => QUESTION_COLUMNS.map (qColName j)) 1 (numQuestions df) := by
    apply blocksFrom_congr
    intro i hi
    rcases slot_some df (1 + i) (by omega) (by omega) with ⟨q, hq⟩
    exact colBlock_eq_names hfill hq
  rw [hcongr, blocksFrom_drop_take (fun i => by simp [QUESTION_COLUMNS])
      (numQuestions df) 1 (k - 1) (by omega)]
  rw [show 1 + (k - 1) = k by omega]

theorem pivotColumns_length {df : List FlatRecord} (hfill : slotsFilled df) :
    (pivotColumns df).length = 9 + 7 * numQuestions df := by
  rw [pivotColumns, List.length_append]
  have hcongr : blocksFrom (colBlock df) 1 (numQuestions df)
      = blocksFrom (fun j => QUESTION_COLUMNS.map (qColName j)) 1 (numQuestions df) := by
    apply blocksFrom_congr
    intro i hi
    rcases slot_some df (1 + i) (by omega) (by omega) with ⟨q, hq⟩
    exact colBlock_eq_names hfill hq
  rw [hcongr, blocksFrom_length (fun i => by simp [QUESTION_COLUMNS])]
  rfl

theorem qCell_of_record {df : List FlatRecord} {sid : Option String} {k : Nat} {q : Int}
    {r' : FlatRecord} (hq : (questionIds df)[k - 1]? = some q)
    (hrec : recordFor df sid q = some r') (c : String) :
    qCell df sid k c = fillCell c (qFieldValue r' c) := by
  simp [qCell, rawQCell, hq, hrec]

theorem qCell_of_missing {df : List FlatRecord} {sid : Option String} {k : Nat} {q : Int}
    (hq : (questionIds df)[k - 1]? = some q)
    (hrec : recordFor df sid q = none) (c : String) :
    qCell df sid k c = fillCell c .na := by
  simp [qCell, rawQCell, hq, hrec]

theorem qBlock_of_record {df : List FlatRecord} {sid : Option String} {k : Nat} {q : Int}
    {r' : FlatRecord} (hq : (questionIds df)[k - 1]? = some q)
    (hrec : recordFor df sid q = some r') :
    qBlock df sid k =
      [.int r'.QuestionID, .str r'.Subject, .str r'.Level, .str r'.QuestionType,
       .str r'.StudentAnswer, .str r'.CorrectAnswer, .int r'.Score] := by
  simp only [qBlock, QUESTION_COLUMNS, List.map_cons, List.map_nil,
    qCell_of_record hq hrec]
  rfl

theorem qBlock_of_missing {df : List FlatRecord} {sid : Option String} {k : Nat} {q : Int}
    (hq : (questionIds df)[k - 1]? = some q)
    (hrec : recordFor df sid q = none) :
    qBlock df sid k = defaultBlock := by
  simp only [qBlock, QUESTION_COLUMNS, List.map_cons, List.map_nil,
    qCell_of_missing hq hrec]
  rfl

theorem recordFor_spec {df : List FlatRecord} {sid : Option String} {q : Int}
    {r : FlatRecord} (h : recordFor df sid q = some r) :
    r.StudentId = sid ∧ r.QuestionID = q ∧ r ∈ df := by
  match sid with
  | none => simp [recordFor] at h
  | some s =>
    rw [recordFor] at h
    rcases hfl : df.filter (fun r => decide (r.StudentId = some s ∧ r.QuestionID = q)) with
      _ | ⟨b, t⟩
    · rw [hfl] at h
      simp at h
    · rw [hfl] at h
      simp only [List.head?_cons, Option.some.injEq] at h
      have hb : b ∈ df.filter (fun x => decide (x.StudentId = some s ∧ x.QuestionID = q)) := by
        rw [hfl]
        exact List.mem_cons_self _ _
      rw [List.mem_filter] at hb
      have hprops := of_decide_eq_true hb.2
      rw [← h]
      exact ⟨hprops.1, hprops.2, hb.1⟩

theorem recordFor_first (pre post : List FlatRecord) {r1 : FlatRecord} {s : String} {q : Int}
    (hpre : ∀ x ∈ pre, ¬(x.StudentId = some s ∧ x.QuestionID = q))
    (h1 : r1.StudentId = some s) (h1q : r1.QuestionID = q) :
    recordFor (pre ++ r1 :: post) (some s) q = some r1 := by
  rw [recordFor, List.filter_append]
  have hnil : pre.filter (fun r => decide (r.StudentId = some s ∧ r.QuestionID = q)) = [] := by
    rw [List.filter_eq_nil_iff]
    intro x hx
    simpa using hpre x hx
  rw [hnil, List.nil_append, List.filter_cons,
    if_pos (decide_eq_true ⟨h1, h1q⟩)]
  rfl

theorem studentRow_mem_rows {df : List FlatRecord} {r : FlatRecord}
    (hr : r ∈ students df) :
    studentRow df r ∈ (pivot_student_data df).rows := by
  have hne : df ≠ [] := by
    intro hnil
    rw [hnil] at hr
    simp [students, dropDupByAux] at hr
  rw [pivot_student_data, if_neg (by simpa [List.isEmpty_iff] using hne)]
  exact List.mem_map_of_mem _ hr

/-! ### Concrete sample data for the witnesses -/

/-- A flat record with fixed school/identity metadata and the given student id,
question id, answer and score — the shape of one row of the SQL result. -/
def mkRec (sid : Option String) (q : Int) (ans : String) (score : Int) : FlatRecord :=
  ⟨"2024-03-01 09:00:00", 1, "Central School", sid, "Ada", "Lovelace", "F", 5, "North",
   q, "MCQ", "Math", "Easy", ans, "B", score⟩

/-- Three records of two students, question ids arriving as 50, 10, 30. -/
def d2 : List FlatRecord :=
  [mkRec (some "A") 50 "x" 1, mkRec (some "B") 10 "y" 0, mkRec (some "A") 30 "z" 1]

/-- A permutation of `d2`. -/
def d2p : List FlatRecord :=
  [mkRec (some "A") 30 "z" 1, mkRec (some "A") 50 "x" 1, mkRec (some "B") 10 "y" 0]

/-- The scenario of spec section 8: student A answers questions 10 and 50,
student B answers only 30. -/
def dW : List FlatRecord :=
  [mkRec (some "A") 10 "a1" 1, mkRec (some "A") 50 "a2" 0, mkRec (some "B") 30 "b1" 1]

/-- The first record of student A in `dW`. -/
def rA : FlatRecord := mkRec (some "A") 10 "a1" 1

/-- One student, one question, empty-string answer. -/
def d4 : List FlatRecord := [mkRec (some "s1") 7 "" 5]

/-- Two records with the same `(studentId, questionId)` and different scores. -/
def r5a : FlatRecord := mkRec (some "A") 10 "first" 3

/-- The later duplicate of `r5a`, differing in answer and score. -/
def r5b : FlatRecord := mkRec (some "A") 10 "second" 9

/-- One student with three questions, for the summary-count witness. -/
def d7 : List FlatRecord :=
  [mkRec (some "A") 50 "x" 1, mkRec (some "A") 10 "y" 1, mkRec (some "A") 30 "z" 1]

/-- A record whose required student identity (`StudentId`) is missing. -/
def r8bad : FlatRecord := mkRec none 5 "ghost" 2

/-- A well-formed record plus `r8bad`, sharing question 5. -/
def d8 : List FlatRecord := [mkRec (some "g") 5 "ok" 1, r8bad]

/-! ### The claims -/

/-- C1: for every input sequence of flat records, the number of student rows
in the table returned by `pivot_student_data` equals the number of distinct
`studentId` values in the input (a `NaN` id counting as one value), including
zero rows for empty input; a student with records appears as exactly one
output row. -/
theorem C1_row_count (df : List FlatRecord) :
    (pivot_student_data df).rows.length = (df.map (·.StudentId)).toFinset.card := by
  rw [← firstSeen_length_eq_card, ← students_length, pivot_student_data]
  split
  case isTrue h =>
    rw [List.isEmpty_iff] at h
    subst h
    rfl
  case isFalse h =>
    simp

/-- C2: `pivot_student_data` assigns slots `1..N` to the distinct `questionId`
values in ascending numeric order (the slot list is sorted, duplicate-free and
carries exactly the question ids of the input), and any permutation of the
input rows yields the identical slot-to-questionId mapping and the identical
output column list. -/
theorem C2_slot_determinism (df df' : List FlatRecord) (h : List.Perm df df') :
    questionIds df = questionIds df' ∧
    (pivot_student_data df).columns = (pivot_student_data df').columns ∧
    List.Sorted (· ≤ ·) (questionIds df) ∧
    (questionIds df).Nodup ∧
    (∀ q : Int, q ∈ questionIds df ↔ ∃ r ∈ df, r.QuestionID = q) := by
  have hq := questionIds_perm h
  refine ⟨hq, ?_, questionIds_sorted df, questionIds_nodup df, questionIds_mem df⟩
  have hemp : df.isEmpty = df'.isEmpty := by
    have hlen := h.length_eq
    rcases df with _ | ⟨a, t⟩ <;> rcases df' with _ | ⟨b, u⟩ <;> simp_all
  rw [pivot_student_data, pivot_student_data, hemp]
  split
  · rfl
  · show pivotColumns df = pivotColumns df'
    rw [pivotColumns, pivotColumns, numQuestions, numQuestions, hq]
    congr 1
    apply blocksFrom_congr
    intro i _
    rw [colBlock, colBlock, hq]
    cases hqi : (questionIds df')[1 + i - 1]? with
    | none => rfl
    | some q => simp only [slotKept_perm h q]

/-- C2 witness: the slot mapping and column list of `d2` survive the
permutation `d2p`, the mapping is sorted and duplicate-free, and it carries
exactly the question ids of the input. -/
theorem C2_slot_determinism_witness :
    List.Perm d2 d2p ∧
    (questionIds d2 = questionIds d2p ∧
     (pivot_student_data d2).columns = (pivot_student_data d2p).columns ∧
     List.Sorted (· ≤ ·) (questionIds d2) ∧
     (questionIds d2).Nodup ∧
     (∀ q : Int, q ∈ questionIds d2 ↔ ∃ r ∈ d2, r.QuestionID = q)) :=
  ⟨by decide, C2_slot_determinism d2 d2p (by decide)⟩

/-- C3: a student row whose student has no matching record for the question of
slot `k` shows the full defaulted block for that slot — `StudentAnswer` is
`"Not Answered"`, `Score` is `0`, and `QuestionId`, `Subject`, `Level`,
`Type`, `CorrectAnswer` are `"N/A"` — with no blank or `NaN` cell, and that
row is part of the pivot output.  (The hypothesis `slotsFilled` restricts to
inputs in which no slot's columns are dropped wholesale by the pivot.) -/
theorem C3_default_fill (df : List FlatRecord) (r : FlatRecord) (k : Nat) (q : Int)
    (hfill : slotsFilled df) (hr : r ∈ students df) (hk : 1 ≤ k)
    (hq : (questionIds df)[k - 1]? = some q)
    (hnone : recordFor df r.StudentId q = none) :
    blockAt (studentRow df r) k = defaultBlock ∧
    studentRow df r ∈ (pivot_student_data df).rows := by
  have hk2 : k ≤ numQuestions df := by
    have := (List.getElem?_eq_some_iff.1 hq).1
    rw [numQuestions]
    omega
  exact ⟨(studentRow_blockAt hfill r hk hk2).trans (qBlock_of_missing hq hnone),
    studentRow_mem_rows hr⟩

/-- C3 witness: in the scenario of spec section 8 (student A answers questions
10 and 50, student B answers only 30), student A's slot-2 block (question 30)
is the full default block. -/
theorem C3_default_fill_witness :
    slotsFilled dW ∧ rA ∈ students dW ∧
    (questionIds dW)[2 - 1]? = some 30 ∧ recordFor dW rA.StudentId 30 = none ∧
    (blockAt (studentRow dW rA) 2 = defaultBlock ∧
     studentRow dW rA ∈ (pivot_student_data dW).rows) :=
  ⟨by decide, by decide, by decide, by decide,
   C3_default_fill dW rA 2 30 (by decide) (by decide) (by decide) (by decide) (by decide)⟩

/-- C4 counterexample: for the input `d4` — one student, one question, with
`studentAnswer` the empty string — the pivoted `Q1_StudentAnswer` cell is the
empty string, not `"Not Answered"`: the `fillna` pass of
`pivot_student_data` replaces only missing cells, never blank ones. -/
theorem C4_counterexample :
    (pivot_student_data d4).rows.map (fun row => blockAt row 1) =
      [[Cell.int 7, Cell.str "Math", Cell.str "Easy", Cell.str "MCQ",
        Cell.str "", Cell.str "B", Cell.int 5]] ∧
    Cell.str "" ≠ Cell.str "Not Answered" := by
  constructor
  · decide
  · decide

/-- C4 amended: blank answers are replaced by the sentinel at the data-fetch
layer, not by the pivot: the SQL `CASE` of `query_service.get_student_responses`
maps a blank (or `NULL`) `UserAnswer` to `"Not Answered"`, and a one-record
input whose `StudentAnswer` carries that sentinel pivots to a `Q1` block whose
`StudentAnswer` cell is `"Not Answered"`. -/
theorem C4_amended_pipeline (r : FlatRecord) (s : String)
    (hans : r.StudentAnswer = studentAnswerSQL (some ""))
    (hsid : r.StudentId = some s) :
    (pivot_student_data [r]).rows.map (fun row => blockAt row 1) =
      [[Cell.int r.QuestionID, Cell.str r.Subject, Cell.str r.Level, Cell.str r.QuestionType,
        Cell.str "Not Answered", Cell.str r.CorrectAnswer, Cell.int r.Score]] := by
  have hfill : slotsFilled [r] := by
    intro q hq
    rw [show questionIds [r] = [r.QuestionID] from rfl] at hq
    rcases List.mem_singleton.1 hq with rfl
    exact ⟨r, List.mem_singleton.2 rfl, by rw [hsid]; exact Option.some_ne_none s, rfl⟩
  have hq1 : (questionIds [r])[1 - 1]? = some r.QuestionID := rfl
  have hrec : recordFor [r] r.StudentId r.QuestionID = some r := by
    rw [hsid]
    exact recordFor_first [] [] (by simp) hsid rfl
  have hrows : (pivot_student_data [r]).rows = [studentRow [r] r] := rfl
  rw [hrows, List.map_singleton,
    studentRow_blockAt hfill r (Nat.le_refl 1) (Nat.le_refl 1),
    qBlock_of_record hq1 hrec, hans]
  rfl

/-- C4 amended witness: the concrete pipeline — a raw `UserAnswer` of `""`
sentinelised by the SQL layer — renders `Q1_StudentAnswer = "Not Answered"`. -/
theorem C4_amended_pipeline_witness :
    (mkRec (some "s1") 7 (studentAnswerSQL (some "")) 5).StudentAnswer
      = studentAnswerSQL (some "") ∧
    (mkRec (some "s1") 7 (studentAnswerSQL (some "")) 5).StudentId = some "s1" ∧
    (pivot_student_data [mkRec (some "s1") 7 (studentAnswerSQL (some "")) 5]).rows.map
        (fun row => blockAt row 1) =
      [[Cell.int 7, Cell.str "Math", Cell.str "Easy", Cell.str "MCQ",
        Cell.str "Not Answered", Cell.str "B", Cell.int 5]] :=
  ⟨rfl, rfl, C4_amended_pipeline (mkRec (some "s1") 7 (studentAnswerSQL (some "")) 5) "s1" rfl rfl⟩

/-- C5: when several records share one `(studentId, questionId)` pair, the
pivot keeps the question-detail fields of the first such record in original
order — the student's slot block equals the first record's seven fields
whatever records follow — and the row is produced without error as part of
the output. -/
theorem C5_first_wins (pre post : List FlatRecord) (r1 rs : FlatRecord) (s : String)
    (q : Int) (k : Nat)
    (hfill : slotsFilled (pre ++ r1 :: post))
    (hpre : ∀ x ∈ pre, ¬(x.StudentId = some s ∧ x.QuestionID = q))
    (h1 : r1.StudentId = some s) (h1q : r1.QuestionID = q)
    (hk : 1 ≤ k) (hq : (questionIds (pre ++ r1 :: post))[k - 1]? = some q)
    (hrs : rs ∈ students (pre ++ r1 :: post)) (hsid : rs.StudentId = some s) :
    blockAt (studentRow (pre ++ r1 :: post) rs) k =
      [.int r1.QuestionID, .str r1.Subject, .str r1.Level, .str r1.QuestionType,
       .str r1.StudentAnswer, .str r1.CorrectAnswer, .int r1.Score] ∧
    studentRow (pre ++ r1 :: post) rs ∈ (pivot_student_data (pre ++ r1 :: post)).rows := by
  have hk2 : k ≤ numQuestions (pre ++ r1 :: post) := by
    have := (List.getElem?_eq_some_iff.1 hq).1
    rw [numQuestions]
    omega
  have hrec : recordFor (pre ++ r1 :: post) rs.StudentId q = some r1 := by
    rw [hsid]
    exact recordFor_first pre post hpre h1 h1q
  exact ⟨(studentRow_blockAt hfill rs hk hk2).trans (qBlock_of_record hq hrec),
    studentRow_mem_rows hrs⟩

/-- C5 witness: two records identical in `(studentId, questionId)` but with
scores 3 and 9 — the output block keeps the first record's answer and score
(`"first"`, 3), dropping the later duplicate. -/
theorem C5_first_wins_witness :
    slotsFilled ([] ++ r5a :: [r5b]) ∧
    r5a.StudentId = some "A" ∧ r5a.QuestionID = 10 ∧
    (questionIds ([] ++ r5a :: [r5b]))[1 - 1]? = some 10 ∧
    r5a ∈ students ([] ++ r5a :: [r5b]) ∧
    (blockAt (studentRow ([] ++ r5a :: [r5b]) r5a) 1 =
      [.int r5a.QuestionID, .str r5a.Subject, .str r5a.Level, .str r5a.QuestionType,
       .str r5a.StudentAnswer, .str r5a.CorrectAnswer, .int r5a.Score] ∧
     studentRow ([] ++ r5a :: [r5b]) r5a ∈ (pivot_student_data ([] ++ r5a :: [r5b])).rows) :=
  ⟨by decide, by decide, by decide, by decide, by decide,
   C5_first_wins [] [r5b] r5a r5a "A" 10 1 (by decide) (by simp) (by decide) (by decide)
     (by decide) (by decide) (by decide) (by decide)⟩

/-- C6: `pivot_student_data` on the empty input returns the empty table, and
`generate_excel` on that table returns the minimal artifact carrying the line
`"Contest ID: {contestId}"` and the no-data notice — a normal return, never an
error. -/
theorem C6_empty_input (cid : Int) (info : Option (List (String × String))) (now : String) :
    pivot_student_data [] = ⟨[], []⟩ ∧
    generate_excel (pivot_student_data []) cid info now =
      .emptyReport ("Contest ID: " ++ toString cid)
        "No data found for the specified filters." :=
  ⟨rfl, rfl⟩

/-- C7: for every non-empty table, both the `A3` header line of the primary
sheet and the `Total Questions` entry of the summary sheet report the question
count `(totalColumns - 9) // 7` (floor division, 9 fixed student columns). -/
theorem C7_question_count (t : Table) (cid : Int) (info : Option (List (String × String)))
    (now : String) (hrows : t.rows ≠ []) (hcols : t.columns ≠ []) :
    (generate_excel t cid info now).studentsLine =
      some ("Students: " ++ toString t.rows.length ++ " | Questions: " ++
        toString (Int.fdiv ((t.columns.length : Int) - 9) 7)) ∧
    List.lookup "Total Questions" (generate_excel t cid info now).summaryPairs =
      some (Cell.int (Int.fdiv ((t.columns.length : Int) - 9) 7)) := by
  rcases t with ⟨cols, rows⟩
  rcases cols with _ | ⟨c0, cs⟩
  · exact absurd rfl hcols
  rcases rows with _ | ⟨r0, rs⟩
  · exact absurd rfl hrows
  exact ⟨rfl, rfl⟩

/-- C7 witness: the pivot of one student and three questions has the 9 fixed
columns plus 21 question columns, and the rendered question count is exactly 3
in the summary sheet and in the `A3` line. -/
theorem C7_question_count_witness :
    (pivot_student_data d7).rows ≠ [] ∧
    (pivot_student_data d7).columns.length = 30 ∧
    (generate_excel (pivot_student_data d7) 42 none "ts").studentsLine =
      some "Students: 1 | Questions: 3" ∧
    List.lookup "Total Questions"
      (generate_excel (pivot_student_data d7) 42 none "ts").summaryPairs =
      some (Cell.int 3) := by
  refine ⟨by decide, by decide, ?_, ?_⟩
  · have h := (C7_question_count (pivot_student_data d7) 42 none "ts"
      (by decide) (by decide)).1
    rw [h]
    decide
  · have h := (C7_question_count (pivot_student_data d7) 42 none "ts"
      (by decide) (by decide)).2
    rw [h]
    decide

/-- C8 counterexample: `d8` contains a record whose required `StudentId`
identity field is missing, yet `pivot_student_data` does not fail: it returns
a two-row table, produces a row for the offending record, and silently drops
that record's question data (its slot-1 block is the default block even though
the record carried an answer). -/
theorem C8_counterexample :
    (pivot_student_data d8).rows.length = 2 ∧
    (pivot_student_data d8).rows.map (fun row => blockAt row 1) =
      [[Cell.int 5, Cell.str "Math", Cell.str "Easy", Cell.str "MCQ", Cell.str "ok",
        Cell.str "B", Cell.int 1],
       defaultBlock] := by
  constructor
  · decide
  · decide

/-- C8 amended: `pivot_student_data` performs no identity validation and does
not fail on a record with a missing `studentId`: the record still yields one
output row, but its question data is silently dropped — every slot block of
that row is the default block. -/
theorem C8_amended_missing_id (df : List FlatRecord) (r : FlatRecord) (k : Nat)
    (hfill : slotsFilled df) (hr : r ∈ students df) (hsid : r.StudentId = none)
    (hk : 1 ≤ k) (hk2 : k ≤ numQuestions df) :
    blockAt (studentRow df r) k = defaultBlock ∧
    studentRow df r ∈ (pivot_student_data df).rows := by
  rcases slot_some df k hk hk2 with ⟨q, hq⟩
  have hrec : recordFor df r.StudentId q = none := by
    rw [hsid]
    rfl
  exact ⟨(studentRow_blockAt hfill r hk hk2).trans (qBlock_of_missing hq hrec),
    studentRow_mem_rows hr⟩

/-- C8 amended witness: the identity-less record `r8bad` of `d8` still
produces an output row, and its single slot block is fully defaulted. -/
theorem C8_amended_missing_id_witness :
    slotsFilled d8 ∧ r8bad ∈ students d8 ∧ r8bad.StudentId = none ∧
    1 ≤ numQuestions d8 ∧
    (blockAt (studentRow d8 r8bad) 1 = defaultBlock ∧
     studentRow d8 r8bad ∈ (pivot_student_data d8).rows) :=
  ⟨by decide, by decide, by decide, by decide,
   C8_amended_missing_id d8 r8bad 1 (by decide) (by decide) (by decide)
     (by decide) (by decide)⟩

/-- C9: for every non-empty input (with no wholesale-dropped slot), the pivot
output's columns are the 9 fixed student columns in declared order, followed
for each slot `k = 1..N` by the seven `Qk_*` columns in declared order, and
every emitted block corresponds to a question carried by at least one record
whose row has data for it. -/
theorem C9_column_order (df : List FlatRecord) (hne : df ≠ []) (hfill : slotsFilled df) :
    (pivot_student_data df).columns.take 9 =
      ["TestDate", "SchoolId", "SchoolName", "StudentId", "FirstName", "LastName",
       "Gender", "Grade", "Region"] ∧
    (pivot_student_data df).columns.length = 9 + 7 * numQuestions df ∧
    (∀ k, 1 ≤ k → k ≤ numQuestions df →
      blockAt (pivot_student_data df).columns k =
        ["QuestionId", "Subject", "Level", "Type", "StudentAnswer", "CorrectAnswer",
         "Score"].map (fun c => "Q" ++ toString k ++ "_" ++ c)) ∧
    (∀ k q, (questionIds df)[k - 1]? = some q →
      ∃ r ∈ df, r.StudentId ≠ none ∧ r.QuestionID = q) := by
  have hcols : (pivot_student_data df).columns = pivotColumns df := by
    rw [pivot_student_data, if_neg (by simpa [List.isEmpty_iff] using hne)]
  refine ⟨?_, ?_, ?_, ?_⟩
  · rw [hcols, pivotColumns, show (9 : Nat) = STUDENT_COLUMNS.length from rfl,
      List.take_left]
    rfl
  · rw [hcols, pivotColumns_length hfill]
  · intro k hk1 hk2
    rw [hcols, pivotColumns_blockAt hfill hk1 hk2]
    rfl
  · intro k q hq
    exact hfill q (List.getElem?_mem hq)

/-- C9 witness: for `dW` (3 slots) the first 9 columns are the fixed student
columns, the total width is `9 + 7*3`, and block 2 carries the seven `Q2_*`
names in order. -/
theorem C9_column_order_witness :
    dW ≠ [] ∧ slotsFilled dW ∧
    (pivot_student_data dW).columns.take 9 =
      ["TestDate", "SchoolId", "SchoolName", "StudentId", "FirstName", "LastName",
       "Gender", "Grade", "Region"] ∧
    (pivot_student_data dW).columns.length = 9 + 7 * numQuestions dW ∧
    blockAt (pivot_student_data dW).columns 2 =
      ["Q2_QuestionId", "Q2_Subject", "Q2_Level", "Q2_Type", "Q2_StudentAnswer",
       "Q2_CorrectAnswer", "Q2_Score"] :=
  ⟨by decide, by decide,
   (C9_column_order dW (by decide) (by decide)).1,
   (C9_column_order dW (by decide) (by decide)).2.1,
   ((C9_column_order dW (by decide) (by decide)).2.2.1 2 (by decide) (by decide)).trans
     (by decide)⟩

/-- C10: whenever a student has a record for the question assigned to slot
`k`, the `Qk_QuestionId` cell of that student's output row equals that
question's id — the `k`-th smallest distinct question id of the input — so
slot numbering and cell contents agree within one render. -/
theorem C10_slot_cell_consistency (df : List FlatRecord) (rs r' : FlatRecord)
    (k : Nat) (q : Int)
    (hfill : slotsFilled df) (hrs : rs ∈ students df) (hk : 1 ≤ k)
    (hq : (questionIds df)[k - 1]? = some q)
    (hrec : recordFor df rs.StudentId q = some r') :
    (blockAt (studentRow df rs) k)[0]? = some (Cell.int q) ∧
    studentRow df rs ∈ (pivot_student_data df).rows := by
  have hk2 : k ≤ numQuestions df := by
    have := (List.getElem?_eq_some_iff.1 hq).1
    rw [numQuestions]
    omega
  have hq' : r'.QuestionID = q := (recordFor_spec hrec).2.1
  rw [studentRow_blockAt hfill rs hk hk2, qBlock_of_record hq hrec]
  refine ⟨?_, studentRow_mem_rows hrs⟩
  rw [hq']
  rfl

/-- C10 witness: in `dW`, slot 3 is question 50 and student A answered it, so
A's `Q3_QuestionId` cell is 50. -/
theorem C10_slot_cell_consistency_witness :
    slotsFilled dW ∧ rA ∈ students dW ∧
    (questionIds dW)[3 - 1]? = some 50 ∧
    recordFor dW rA.StudentId 50 = some (mkRec (some "A") 50 "a2" 0) ∧
    ((blockAt (studentRow dW rA) 3)[0]? = some (Cell.int 50) ∧
     studentRow dW rA ∈ (pivot_student_data dW).rows) :=
  ⟨by decide, by decide, by decide, by decide,
   C10_slot_cell_consistency dW rA (mkRec (some "A") 50 "a2" 0) 3 50
     (by decide) (by decide) (by decide) (by decide) (by decide)⟩

end FastApiExcel
